import Mathlib

/-!
Verification development for the sip_call firmware's top-level
session/connectivity controller (`src/main/main.cpp`).

The embedding models:
  * the SIP client state visible to this file (`ClientState`): the
    initialized flag toggled by `init()`/`deinit()`, whether a session
    event callback is installed, and the two mutable addresses
    (`set_server_ip`, `set_my_ip`);
  * the WiFi/IP `event_handler` (main.cpp:99-126) as a function from the
    delivered event to a new client state, the CONNECTED_BIT of the
    event group, and a list of observable effects;
  * the `sip_task` loop (main.cpp:164-235) as a small-step transition
    function `sip_task_step` over a program counter, interleaved with
    handler invocations through schedules (`Act` lists);
  * the session event callback installed by `sip_task`
    (main.cpp:186-230) as `sip_event_callback`;
  * the startup order of `app_main`/`initialize_wifi` registrations
    (main.cpp:128-154, 237-265) as `app_main_steps`.

The session object's `init() -> bool` / `deinit()` / `is_initialized()`
contract (READY vs UNINITIALIZED) lives in the repository's sip_client
component, which is not part of the given sources; it is modelled from
the spec's consumed-interface description (spec §3, §6): a successful
`init()` makes `is_initialized()` true, `deinit()` makes it false, and
the outcome of each `init()` call is an oracle (`initResults`).
-/

/-- One IPv4 address, as the `u32` of `esp_ip4_addr_t` (byte i of the
dotted form is `(addr >>> (8*i)) &&& 0xff`, as the `IP2STR` macro reads it). -/
structure Ip4Addr where
  addr : Nat
deriving DecidableEq, Repr

/-- `esp_netif_ip_info_t`: ip, netmask, gateway. -/
structure IpInfo where
  ip : Ip4Addr
  netmask : Ip4Addr
  gw : Ip4Addr
deriving DecidableEq, Repr

/-- The got-IP event payload (`ip_event_got_ip_t` /
`system_event_sta_got_ip_t`): the part read by the handler. -/
structure GotIpEvent where
  ip_info : IpInfo
deriving DecidableEq, Repr

/-- main.cpp:78-84 `ip_to_string`: formats the four bytes of the address
as dotted decimal, least significant byte first, exactly as
`snprintf(buffer, 16, IPSTR, IP2STR(ip))` does.  The 16-byte buffer never
truncates: each byte is at most 255, so the string is at most 15
characters plus the terminator. -/
def ip_to_string (ip : Ip4Addr) : String :=
  toString (ip.addr % 256) ++ "." ++ toString (ip.addr / 256 % 256) ++ "."
    ++ toString (ip.addr / 65536 % 256) ++ "." ++ toString (ip.addr / 16777216 % 256)

/-- main.cpp:87-91 `get_gw_ip_address`: takes the full got-IP event
structure and renders its `ip_info.gw` field.  (Only compiled when
`CONFIG_SIP_SERVER_IS_DHCP_SERVER` is defined.) -/
def get_gw_ip_address (got_ip : GotIpEvent) : String :=
  ip_to_string got_ip.ip_info.gw

/-- main.cpp:94-97 `get_local_ip_address`: renders one address. -/
def get_local_ip_address (got_ip : Ip4Addr) : String :=
  ip_to_string got_ip

/-- The SIP client state observable from main.cpp.
`initialized` is `is_initialized()`; `handlerInstalled` records whether
`set_event_handler` has been called; `serverIp`/`myIp` are the two
addresses mutable through `set_server_ip`/`set_my_ip`.
Modelled from the spec: the session object's internal behaviour is the
sip_client component (not among the given sources); per spec §6 a
successful `init()` sets the initialized state, `deinit()` clears it. -/
structure ClientState where
  initialized : Bool
  handlerInstalled : Bool
  serverIp : String
  myIp : String
deriving DecidableEq, Repr

/-- The client as constructed in app_main (main.cpp:250): not yet
initialized, no event callback; the Kconfig-supplied credential and
address strings do not influence any control flow modelled here and are
stood in for by `""`. -/
def client0 : ClientState :=
  { initialized := false, handlerInstalled := false, serverIp := "", myIp := "" }

/-- Observable effects of the controller, in program order. -/
inductive Eff
  | deinit
  | wifiConnect
  | clearBit
  | setBit
  | setServerIp (s : String)
  | setMyIp (s : String)
  | waitBits
  | initAttempt (ok : Bool)
  | delay (ms : Nat)
  | installHandler
  | ioRun
deriving DecidableEq, Repr

/-- Event bases delivered to `event_handler`. -/
inductive EventBase
  | WIFI_EVENT
  | IP_EVENT
deriving DecidableEq, Repr

/-- Event ids delivered to `event_handler` (the handler is registered
for `ESP_EVENT_ANY_ID` on WIFI_EVENT, so ids outside the three it tests
can arrive; `other` stands for all of those). -/
inductive EventId
  | STA_START
  | STA_DISCONNECTED
  | STA_GOT_IP
  | other (n : Nat)
deriving DecidableEq, Repr

/-- Null-pointer dereference: what the C code does when it calls a
method through a null `client` pointer. -/
inductive MemError
  | nullDeref
deriving DecidableEq, Repr

/-- main.cpp:108-114, the `WIFI_EVENT_STA_DISCONNECTED` branch:
`client->deinit()` (the session becomes uninitialized), then
`esp_wifi_connect()` (reassociation request), then
`xEventGroupClearBits(wifi_event_group, CONNECTED_BIT)`.
Returns the new client state, the new CONNECTED_BIT value, and the
effects in program order. -/
def handle_disconnected (c : ClientState) : ClientState × Bool × List Eff :=
  ({ c with initialized := false }, false, [Eff.deinit, Eff.wifiConnect, Eff.clearBit])

/-- main.cpp:115-125, the `IP_EVENT_STA_GOT_IP` branch.
The source sets `got_ip = &event->ip_info.ip` (main.cpp:119) and then,
under `CONFIG_SIP_SERVER_IS_DHCP_SERVER`, calls
`get_gw_ip_address(got_ip)` (main.cpp:121) — but `get_gw_ip_address`
expects a pointer to the whole `system_event_sta_got_ip_t` event, not to
the local address field.  That call is ill-typed in C++; its
reinterpretation of the bytes at the local-address location as an event
structure is modelled by the parameter `cast`, so the value actually
recorded as the server address is a function of `ev.ip_info.ip` only.
Then `set_my_ip(get_local_ip_address(got_ip))` and
`xEventGroupSetBits(wifi_event_group, CONNECTED_BIT)`. -/
def handle_got_ip (dhcp : Bool) (cast : Ip4Addr → GotIpEvent)
    (c : ClientState) (ev : GotIpEvent) : ClientState × Bool × List Eff :=
  let got_ip : Ip4Addr := ev.ip_info.ip
  let c1 := if dhcp then { c with serverIp := get_gw_ip_address (cast got_ip) } else c
  let c2 := { c1 with myIp := get_local_ip_address got_ip }
  (c2, true,
    (if dhcp then [Eff.setServerIp (get_gw_ip_address (cast got_ip))] else [])
      ++ [Eff.setMyIp (get_local_ip_address got_ip), Eff.setBit])

/-- main.cpp:99-126 `event_handler`: dispatches on the event base/id.
`arg` is the registered handler argument cast to `SipClientT*`
(`none` models a NULL registration, main.cpp:144-145); dereferencing it
in the disconnected or got-IP branch with `arg = none` is a null
dereference.  `bits` is the current CONNECTED_BIT. -/
def event_handler (dhcp : Bool) (cast : Ip4Addr → GotIpEvent)
    (arg : Option ClientState) (bits : Bool)
    (event_base : EventBase) (event_id : EventId) (event_data : GotIpEvent) :
    Except MemError (Option ClientState × Bool × List Eff) :=
  if event_base = EventBase.WIFI_EVENT ∧ event_id = EventId.STA_START then
    Except.ok (arg, bits, [Eff.wifiConnect])
  else if event_base = EventBase.WIFI_EVENT ∧ event_id = EventId.STA_DISCONNECTED then
    match arg with
    | none => Except.error MemError.nullDeref
    | some c =>
      let r := handle_disconnected c
      Except.ok (some r.1, r.2.1, r.2.2)
  else if event_base = EventBase.IP_EVENT ∧ event_id = EventId.STA_GOT_IP then
    match arg with
    | none => Except.error MemError.nullDeref
    | some c =>
      let r := handle_got_ip dhcp cast c event_data
      Except.ok (some r.1, r.2.1, r.2.2)
  else
    Except.ok (arg, bits, [])

/-- The tagged session event union (spec §4.3; `SipClientEvent` is
declared in the sip_client component, modelled here from its use in
main.cpp:186-229 and the spec's event list). -/
inductive SipClientEvent
  | CALL_START
  | CALL_CANCELLED (cancel_reason : Int)
  | CALL_END
  | BUTTON_PRESS (button_signal : Char) (button_duration : Nat)
deriving DecidableEq, Repr

/-- Actions the installed callback can forward to the button loop owner
or the actuator. -/
inductive RouterAction
  | call_end
  | trigger
deriving DecidableEq, Repr

/-- `s[0]` of a C string literal: its first character, or NUL for the
empty literal. -/
def string_front (s : String) : Char :=
  s.data.headD (Char.ofNat 0)

/-- main.cpp:186-230, the lambda passed to `set_event_handler`:
CALL_START logs only; CALL_CANCELLED and CALL_END call
`button_input_handler.call_end()`; BUTTON_PRESS calls
`actuator_handler.trigger()` exactly when the signal character equals
`ACTUATOR_PHONE_BUTTON[0]` (main.cpp:203).  `actuator_phone_button` is
the `CONFIG_ACTUATOR_PHONE_BUTTON` string (main.cpp:48). -/
def sip_event_callback (actuator_phone_button : String) :
    SipClientEvent → List RouterAction
  | SipClientEvent.CALL_START => []
  | SipClientEvent.CALL_CANCELLED _ => [RouterAction.call_end]
  | SipClientEvent.CALL_END => [RouterAction.call_end]
  | SipClientEvent.BUTTON_PRESS sig _ =>
      if sig = string_front actuator_phone_button then [RouterAction.trigger] else []

/-- main.cpp:50-54: the preprocessor block
`#if CONFIG_ACTUATOR_ACTIVE_HIGH` / `#elif` / `#endif`.
With the config option enabled the constant is defined as `false`
(main.cpp:51).  With the option disabled the `#elif` directive at
main.cpp:52 carries no expression, so preprocessing fails: modelled as
`none`. -/
def ACTUATOR_ACTIVE_HIGH (config_actuator_active_high : Bool) : Option Bool :=
  if config_actuator_active_high then some false else none

/-- main.cpp:160: the `handlers_t` member declaration hardcodes the
polarity template argument of the referenced `ActuatorHandler` to the
literal `false`. -/
def handlers_t_actuator_polarity : Bool := false

/-- Program counter of the `sip_task` loop body (main.cpp:171-234). -/
inductive Pc
  | atWait
  | atCheck
  | atInit
  | atDelay
  | atInstall
  | atRun
deriving DecidableEq, Repr

/-- State shared between the task loop and the event handler:
the CONNECTED_BIT of the event group, the client, the loop's program
counter, and the oracle of outcomes of the remaining `init()` calls
(the sip_client's network interactions are outside the given sources;
an exhausted oracle reports failure). -/
structure SysState where
  connectedBit : Bool
  client : ClientState
  pc : Pc
  initResults : List Bool
deriving DecidableEq, Repr

/-- One statement-level step of `sip_task` (main.cpp:171-234):
  * `atWait`: `xEventGroupWaitBits(..., CONNECTED_BIT, false, true,
    portMAX_DELAY)` — enabled only while the bit is set (`none` =
    blocked forever otherwise);
  * `atCheck`: the `if (!client.is_initialized())` test;
  * `atInit`: `client.init()`; on success the client becomes
    initialized and control reaches `set_event_handler`; on failure it
    stays uninitialized and control reaches the delay;
  * `atDelay`: `vTaskDelay(2000 / portTICK_RATE_MS)` then `continue`,
    back to the wait at the top of the loop;
  * `atInstall`: `client.set_event_handler(...)`;
  * `atRun`: `handlers->io_context.run()`, which eventually returns and
    loops back to the wait. -/
def sip_task_step (s : SysState) : Option (SysState × List Eff) :=
  match s.pc with
  | Pc.atWait =>
      if s.connectedBit then some ({ s with pc := Pc.atCheck }, [Eff.waitBits]) else none
  | Pc.atCheck =>
      if s.client.initialized then some ({ s with pc := Pc.atRun }, [])
      else some ({ s with pc := Pc.atInit }, [])
  | Pc.atInit =>
      if s.initResults.headD false then
        some
          ({ s with
              client := { s.client with initialized := true },
              initResults := s.initResults.tail,
              pc := Pc.atInstall },
            [Eff.initAttempt true])
      else
        some
          ({ s with initResults := s.initResults.tail, pc := Pc.atDelay },
            [Eff.initAttempt false])
  | Pc.atDelay => some ({ s with pc := Pc.atWait }, [Eff.delay 2000])
  | Pc.atInstall =>
      some ({ s with client := { s.client with handlerInstalled := true }, pc := Pc.atRun },
        [Eff.installHandler])
  | Pc.atRun => some ({ s with pc := Pc.atWait }, [Eff.ioRun])

/-- One scheduling action: a statement of the task loop, or an
invocation of `event_handler` with the client argument (disconnected or
got-IP; STA_START touches no shared state modelled here). -/
inductive Act
  | task
  | disconnect
  | gotIp (ev : GotIpEvent)
deriving DecidableEq, Repr

/-- Whether the action is an address-acquired delivery — the only
action that sets the CONNECTED_BIT. -/
def Act.isGotIp : Act → Bool
  | Act.gotIp _ => true
  | _ => false

/-- Apply one action.  A blocked task step (waiting on the bit) does
nothing.  Handler invocations update the client and the bit as
`event_handler` does with `arg = &client`. -/
def applyAct (dhcp : Bool) (cast : Ip4Addr → GotIpEvent) (s : SysState) :
    Act → SysState × List Eff
  | Act.task =>
      match sip_task_step s with
      | some (s1, effs) => (s1, effs)
      | none => (s, [])
  | Act.disconnect =>
      let r := handle_disconnected s.client
      ({ s with client := r.1, connectedBit := r.2.1 }, r.2.2)
  | Act.gotIp ev =>
      let r := handle_got_ip dhcp cast s.client ev
      ({ s with client := r.1, connectedBit := r.2.1 }, r.2.2)

/-- Run a schedule, collecting the effect trace. -/
def run (dhcp : Bool) (cast : Ip4Addr → GotIpEvent) :
    SysState → List Act → SysState × List Eff
  | s, [] => (s, [])
  | s, a :: rest =>
      let r1 := applyAct dhcp cast s a
      let r2 := run dhcp cast r1.1 rest
      (r2.1, r1.2 ++ r2.2)

/-- A fixed reinterpretation function, used where a concrete `cast`
argument is needed but its value is irrelevant. -/
def cast0 : Ip4Addr → GotIpEvent :=
  fun _ => { ip_info := { ip := { addr := 0 }, netmask := { addr := 0 }, gw := { addr := 0 } } }

/-- Loop state with the bit set, the freshly constructed client, the
loop at its top, and a given oracle of `init()` outcomes. -/
def loopState (rs : List Bool) : SysState :=
  { connectedBit := true, client := client0, pc := Pc.atWait, initResults := rs }

/-- A startup step of `app_main` (main.cpp:237-265, with
`initialize_wifi`, main.cpp:128-154), keeping only what affects the
event-handler registrations and the wireless stack.  The registration
argument is the pointer later handed to `event_handler`: `none` is
NULL, `some ()` is `&client`. -/
inductive StartupStep
  | registerWifi (arg : Option Unit)
  | registerIp (arg : Option Unit)
  | wifiStart
  | otherStep
deriving DecidableEq, Repr

/-- What the default event loop knows: for each of the two
registrations, `none` when not yet registered, `some a` when registered
with argument `a`; plus whether `esp_wifi_start()` has run.
Re-registering the same handler for the same base/id overwrites the
stored argument (ESP-IDF event-loop semantics). -/
structure EventRegistry where
  wifi_handler_arg : Option (Option Unit)
  ip_handler_arg : Option (Option Unit)
  wifi_started : Bool
deriving DecidableEq, Repr

/-- Empty registry at process start. -/
def registry0 : EventRegistry :=
  { wifi_handler_arg := none, ip_handler_arg := none, wifi_started := false }

/-- Apply one startup step to the registry. -/
def apply_startup_step (r : EventRegistry) : StartupStep → EventRegistry
  | StartupStep.registerWifi a => { r with wifi_handler_arg := some a }
  | StartupStep.registerIp a => { r with ip_handler_arg := some a }
  | StartupStep.wifiStart => { r with wifi_started := true }
  | StartupStep.otherStep => r

/-- The startup sequence of `app_main` in source order:
srand/nvs (main.cpp:240-241); the body of `initialize_wifi`
(netif/event-loop/wifi bring-up, main.cpp:130-137; the two
registrations with NULL argument, main.cpp:144-145; mode and config,
main.cpp:148-149; `esp_wifi_start()`, main.cpp:150; power save,
main.cpp:153); reseed and object construction (main.cpp:245-254); the
two re-registrations with `&client`, main.cpp:256-257; task creation
and the button loop (main.cpp:261-264). -/
def app_main_steps : List StartupStep :=
  [ StartupStep.otherStep,
    StartupStep.otherStep,
    StartupStep.registerWifi none,
    StartupStep.registerIp none,
    StartupStep.otherStep,
    StartupStep.wifiStart,
    StartupStep.otherStep,
    StartupStep.registerWifi (some ()),
    StartupStep.registerIp (some ()),
    StartupStep.otherStep ]

/-- Registry after the first `n` startup steps. -/
def registry_after (n : Nat) : EventRegistry :=
  (app_main_steps.take n).foldl apply_startup_step registry0

/-- A concrete got-IP event payload. -/
def ev0 : GotIpEvent :=
  { ip_info := { ip := { addr := 0 }, netmask := { addr := 0 }, gw := { addr := 0 } } }

/-- A concrete got-IP event payload with the same local address as
`ev0` but a different gateway. -/
def evGw1 : GotIpEvent :=
  { ip_info := { ip := { addr := 0 }, netmask := { addr := 0 }, gw := { addr := 1 } } }

/-- The loop guard `sip_task` maintains between the check and the init
call: whenever control is about to call `client.init()`, the client is
not initialized. -/
def InitInv (s : SysState) : Prop :=
  s.pc = Pc.atInit → s.client.initialized = false

/-- Concrete state sitting in the 2000 ms inter-attempt delay after the
CONNECTED_BIT has been cleared by a disconnect. -/
def delayState : SysState :=
  { connectedBit := false, client := client0, pc := Pc.atDelay, initResults := [] }

/-- Concrete state about to execute `set_event_handler`. -/
def installState : SysState :=
  { connectedBit := true, client := client0, pc := Pc.atInstall, initResults := [] }

/-- Concrete state about to execute `client.init()` with one successful
outcome pending. -/
def preInitState : SysState :=
  { connectedBit := true, client := client0, pc := Pc.atInit, initResults := [true] }

/-- C2: on every link-disconnected notification delivered with the
client as argument, the handler performs exactly three effects in this
order — `deinit()` on the session (whose initialized state becomes
false), a reassociation request (`esp_wifi_connect`), and clearing the
CONNECTED_BIT — and nothing else. -/
theorem c2_disconnected_effects (dhcp : Bool) (cast : Ip4Addr → GotIpEvent)
    (c : ClientState) (bits : Bool) (d : GotIpEvent) :
    event_handler dhcp cast (some c) bits EventBase.WIFI_EVENT EventId.STA_DISCONNECTED d =
      Except.ok (some { c with initialized := false }, false,
        [Eff.deinit, Eff.wifiConnect, Eff.clearBit]) :=
  rfl

/-- C4: for every BUTTON_PRESS(signal, duration) event, the installed
callback invokes `trigger()` exactly once when the signal equals the
configured actuator-trigger value `ACTUATOR_PHONE_BUTTON[0]` (the first
character of the configured button-signal string, main.cpp:203), and
invokes no button or actuator action for any other signal. -/
theorem c4_button_press_routing (actuator_phone_button : String) (sig : Char) (dur : Nat) :
    sip_event_callback actuator_phone_button (SipClientEvent.BUTTON_PRESS sig dur)
        = (if sig = string_front actuator_phone_button then [RouterAction.trigger] else [])
    ∧ (sip_event_callback actuator_phone_button
          (SipClientEvent.BUTTON_PRESS sig dur)).count RouterAction.trigger
        = (if sig = string_front actuator_phone_button then 1 else 0)
    ∧ (sip_event_callback actuator_phone_button
          (SipClientEvent.BUTTON_PRESS sig dur)).count RouterAction.call_end = 0 := by
  by_cases h : sig = string_front actuator_phone_button <;>
    simp [sip_event_callback, h]

/-- C7: CALL_END invokes `call_end()` exactly once, CALL_CANCELLED
invokes `call_end()` exactly once, and CALL_START invokes no button or
actuator action. -/
theorem c7_call_event_routing (actuator_phone_button : String) (r : Int) :
    sip_event_callback actuator_phone_button SipClientEvent.CALL_END = [RouterAction.call_end]
    ∧ sip_event_callback actuator_phone_button (SipClientEvent.CALL_CANCELLED r)
        = [RouterAction.call_end]
    ∧ (sip_event_callback actuator_phone_button SipClientEvent.CALL_END).count
        RouterAction.call_end = 1
    ∧ (sip_event_callback actuator_phone_button
          (SipClientEvent.CALL_CANCELLED r)).count RouterAction.call_end = 1
    ∧ sip_event_callback actuator_phone_button SipClientEvent.CALL_START = [] :=
  ⟨rfl, rfl, rfl, rfl, rfl⟩

/-- C5 (code bug): with `CONFIG_ACTUATOR_ACTIVE_HIGH` enabled — the only
configuration that survives preprocessing — the constant
`ACTUATOR_ACTIVE_HIGH` is `false`, the opposite of the configured
polarity; with the option disabled the dangling `#elif` kills the
build; and the `handlers_t` member type hardcodes polarity `false`. -/
theorem c5_actuator_polarity_inverted :
    ACTUATOR_ACTIVE_HIGH true = some false
    ∧ ACTUATOR_ACTIVE_HIGH true ≠ some true
    ∧ ACTUATOR_ACTIVE_HIGH false = none
    ∧ handlers_t_actuator_polarity = false := by
  decide

/-- C9 (code bug): after `esp_wifi_start()` (step 6 of the startup
sequence) and before `app_main` re-registers the handler with
`&client`, both registrations hold a NULL argument (main.cpp:144-145),
and delivering a disconnected or got-IP notification in that window
makes `event_handler` dereference a null client pointer. -/
theorem c9_null_handler_argument_window :
    (registry_after 6).wifi_started = true
    ∧ (registry_after 6).wifi_handler_arg = some none
    ∧ (registry_after 6).ip_handler_arg = some none
    ∧ event_handler false cast0 none true EventBase.WIFI_EVENT EventId.STA_DISCONNECTED ev0
        = Except.error MemError.nullDeref
    ∧ event_handler false cast0 none true EventBase.IP_EVENT EventId.STA_GOT_IP ev0
        = Except.error MemError.nullDeref :=
  ⟨rfl, rfl, rfl, rfl, rfl⟩

/-- C10: the got-IP branch only rewrites the two configured addresses
and sets the CONNECTED_BIT: the session's initialized state and its
installed callback are untouched, and no `deinit`, `init`,
`set_event_handler` or bit-clear effect occurs; `event_handler`
dispatches the IP_EVENT/STA_GOT_IP case to exactly this branch. -/
theorem c10_got_ip_frame (dhcp : Bool) (cast : Ip4Addr → GotIpEvent)
    (c : ClientState) (bits : Bool) (ev : GotIpEvent) :
    (handle_got_ip dhcp cast c ev).1.initialized = c.initialized
    ∧ (handle_got_ip dhcp cast c ev).1.handlerInstalled = c.handlerInstalled
    ∧ (handle_got_ip dhcp cast c ev).2.1 = true
    ∧ Eff.deinit ∉ (handle_got_ip dhcp cast c ev).2.2
    ∧ (∀ b, Eff.initAttempt b ∉ (handle_got_ip dhcp cast c ev).2.2)
    ∧ Eff.installHandler ∉ (handle_got_ip dhcp cast c ev).2.2
    ∧ Eff.clearBit ∉ (handle_got_ip dhcp cast c ev).2.2
    ∧ event_handler dhcp cast (some c) bits EventBase.IP_EVENT EventId.STA_GOT_IP ev
        = Except.ok (some (handle_got_ip dhcp cast c ev).1,
            (handle_got_ip dhcp cast c ev).2.1, (handle_got_ip dhcp cast c ev).2.2) := by
  refine ⟨?_, ?_, ?_, ?_, ?_, ?_, ?_, rfl⟩ <;>
    cases dhcp <;> simp [handle_got_ip]

/-- C6 (code bug): whatever value the ill-typed call at main.cpp:121
actually produces (modelled by an arbitrary reinterpretation `cast` of
the local-address bytes), there is a got-IP event for which the
recorded server address differs from the event's gateway address — the
recorded value depends only on `ip_info.ip`, never on `ip_info.gw`. -/
theorem c6_gateway_not_recorded (cast : Ip4Addr → GotIpEvent) :
    (handle_got_ip true cast client0 ev0).1.serverIp ≠ ip_to_string ev0.ip_info.gw
    ∨ (handle_got_ip true cast client0 evGw1).1.serverIp ≠ ip_to_string evGw1.ip_info.gw := by
  by_cases h : get_gw_ip_address (cast { addr := 0 })
      = ip_to_string ({ addr := 0 } : Ip4Addr)
  · refine Or.inr ?_
    show get_gw_ip_address (cast { addr := 0 }) ≠ ip_to_string ({ addr := 1 } : Ip4Addr)
    rw [h]
    decide
  · refine Or.inl ?_
    show get_gw_ip_address (cast { addr := 0 }) ≠ ip_to_string ({ addr := 0 } : Ip4Addr)
    exact h

/-- Witness for C6: instance at a fixed reinterpretation function. -/
theorem c6_gateway_not_recorded_witness :
    (handle_got_ip true cast0 client0 ev0).1.serverIp ≠ ip_to_string ev0.ip_info.gw
    ∨ (handle_got_ip true cast0 client0 evGw1).1.serverIp ≠ ip_to_string evGw1.ip_info.gw :=
  c6_gateway_not_recorded cast0

/-- A task step never reaches the init call with an initialized client:
the only transition into `Pc.atInit` is the failed `is_initialized()`
check. -/
theorem sip_task_step_initInv {s s1 : SysState} {effs : List Eff}
    (hstep : sip_task_step s = some (s1, effs)) : InitInv s1 := by
  unfold sip_task_step at hstep
  split at hstep
  · split at hstep
    · simp only [Option.some.injEq, Prod.mk.injEq] at hstep
      obtain ⟨rfl, rfl⟩ := hstep
      intro hpc
      exact Pc.noConfusion hpc
    · exact Option.noConfusion hstep
  · split at hstep
    · simp only [Option.some.injEq, Prod.mk.injEq] at hstep
      obtain ⟨rfl, rfl⟩ := hstep
      intro hpc
      exact Pc.noConfusion hpc
    · rename_i hinit
      simp only [Option.some.injEq, Prod.mk.injEq] at hstep
      obtain ⟨rfl, rfl⟩ := hstep
      intro _
      simpa using hinit
  · split at hstep
    · simp only [Option.some.injEq, Prod.mk.injEq] at hstep
      obtain ⟨rfl, rfl⟩ := hstep
      intro hpc
      exact Pc.noConfusion hpc
    · simp only [Option.some.injEq, Prod.mk.injEq] at hstep
      obtain ⟨rfl, rfl⟩ := hstep
      intro hpc
      exact Pc.noConfusion hpc
  · simp only [Option.some.injEq, Prod.mk.injEq] at hstep
    obtain ⟨rfl, rfl⟩ := hstep
    intro hpc
    exact Pc.noConfusion hpc
  · simp only [Option.some.injEq, Prod.mk.injEq] at hstep
    obtain ⟨rfl, rfl⟩ := hstep
    intro hpc
    exact Pc.noConfusion hpc
  · simp only [Option.some.injEq, Prod.mk.injEq] at hstep
    obtain ⟨rfl, rfl⟩ := hstep
    intro hpc
    exact Pc.noConfusion hpc

/-- The got-IP branch never changes the initialized state. -/
theorem handle_got_ip_initialized (dhcp : Bool) (cast : Ip4Addr → GotIpEvent)
    (c : ClientState) (ev : GotIpEvent) :
    (handle_got_ip dhcp cast c ev).1.initialized = c.initialized := by
  cases dhcp <;> simp [handle_got_ip]

/-- Every action preserves the init-call guard invariant. -/
theorem applyAct_initInv (dhcp : Bool) (cast : Ip4Addr → GotIpEvent)
    {s : SysState} (a : Act) (h : InitInv s) :
    InitInv (applyAct dhcp cast s a).1 := by
  cases a
  case task =>
    unfold applyAct
    cases hstep : sip_task_step s with
    | none => exact h
    | some r =>
      obtain ⟨s1, effs⟩ := r
      exact sip_task_step_initInv hstep
  case disconnect =>
    intro _
    simp [applyAct, handle_disconnected]
  case gotIp ev =>
    intro hpc
    have hpc2 : s.pc = Pc.atInit := hpc
    simp only [applyAct]
    rw [handle_got_ip_initialized]
    exact h hpc2

/-- The invariant carries along every schedule. -/
theorem run_initInv (dhcp : Bool) (cast : Ip4Addr → GotIpEvent)
    (acts : List Act) {s : SysState} (h : InitInv s) :
    InitInv (run dhcp cast s acts).1 := by
  induction acts generalizing s with
  | nil => exact h
  | cons a rest ih =>
    show InitInv (run dhcp cast (applyAct dhcp cast s a).1 rest).1
    exact ih (applyAct_initInv dhcp cast a h)

/-- A task step emits an init attempt only from `Pc.atInit`. -/
theorem sip_task_step_initAttempt {s s1 : SysState} {effs : List Eff} {b : Bool}
    (hstep : sip_task_step s = some (s1, effs)) (hmem : Eff.initAttempt b ∈ effs) :
    s.pc = Pc.atInit := by
  unfold sip_task_step at hstep
  split at hstep
  · split at hstep
    · simp only [Option.some.injEq, Prod.mk.injEq] at hstep
      obtain ⟨rfl, rfl⟩ := hstep
      simp at hmem
    · exact Option.noConfusion hstep
  · split at hstep <;>
      (simp only [Option.some.injEq, Prod.mk.injEq] at hstep;
       obtain ⟨rfl, rfl⟩ := hstep; simp at hmem)
  · assumption
  · simp only [Option.some.injEq, Prod.mk.injEq] at hstep
    obtain ⟨rfl, rfl⟩ := hstep
    simp at hmem
  · simp only [Option.some.injEq, Prod.mk.injEq] at hstep
    obtain ⟨rfl, rfl⟩ := hstep
    simp at hmem
  · simp only [Option.some.injEq, Prod.mk.injEq] at hstep
    obtain ⟨rfl, rfl⟩ := hstep
    simp at hmem

/-- Only a task step at `Pc.atInit` can emit an init attempt: handler
invocations never do. -/
theorem applyAct_initAttempt (dhcp : Bool) (cast : Ip4Addr → GotIpEvent)
    {s : SysState} {a : Act} {b : Bool}
    (hmem : Eff.initAttempt b ∈ (applyAct dhcp cast s a).2) :
    a = Act.task ∧ s.pc = Pc.atInit := by
  cases a
  case task =>
    refine ⟨rfl, ?_⟩
    unfold applyAct at hmem
    cases hstep : sip_task_step s with
    | none => rw [hstep] at hmem; simp at hmem
    | some r =>
      obtain ⟨s1, effs⟩ := r
      rw [hstep] at hmem
      exact sip_task_step_initAttempt hstep hmem
  case disconnect =>
    simp [applyAct, handle_disconnected] at hmem
  case gotIp ev =>
    cases dhcp <;> simp [applyAct, handle_got_ip] at hmem

/-- C1: along every interleaving of task-loop statements and handler
invocations, whenever an `init()` attempt fires the session is not
initialized (`init()` only runs behind the failed `is_initialized()`
check, and nothing between the check and the call can initialize it),
and a disconnect notification at that point tears the handle down —
`deinit()` leaves it uninitialized, with the deinit effect emitted
before the readiness clear — so an init never lands on a live handle. -/
theorem c1_no_double_init (dhcp : Bool) (cast : Ip4Addr → GotIpEvent)
    (s0 : SysState) (pre : List Act) (a : Act) (b : Bool)
    (h0 : InitInv s0)
    (hmem : Eff.initAttempt b ∈ (applyAct dhcp cast (run dhcp cast s0 pre).1 a).2) :
    (run dhcp cast s0 pre).1.client.initialized = false
    ∧ (handle_disconnected (run dhcp cast s0 pre).1.client).1.initialized = false
    ∧ (handle_disconnected (run dhcp cast s0 pre).1.client).2.2
        = [Eff.deinit, Eff.wifiConnect, Eff.clearBit] := by
  refine ⟨?_, rfl, rfl⟩
  exact run_initInv dhcp cast pre h0 (applyAct_initAttempt dhcp cast hmem).2

/-- Witness for C1: from the start state with the bit set and one
pending failed init outcome, two task steps reach the init call and the
third emits the attempt with the client uninitialized. -/
theorem c1_no_double_init_witness :
    (run false cast0 (loopState [false]) [Act.task, Act.task]).1.client.initialized = false
    ∧ (handle_disconnected
        (run false cast0 (loopState [false]) [Act.task, Act.task]).1.client).1.initialized
        = false
    ∧ (handle_disconnected
        (run false cast0 (loopState [false]) [Act.task, Act.task]).1.client).2.2
        = [Eff.deinit, Eff.wifiConnect, Eff.clearBit] :=
  c1_no_double_init false cast0 (loopState [false]) [Act.task, Act.task] Act.task false
    (by intro h; simp [loopState] at h) (by decide)

/-- Running a concatenated schedule runs the pieces in order and
concatenates the traces. -/
theorem run_append (dhcp : Bool) (cast : Ip4Addr → GotIpEvent)
    (l1 l2 : List Act) (s : SysState) :
    run dhcp cast s (l1 ++ l2)
      = ((run dhcp cast (run dhcp cast s l1).1 l2).1,
         (run dhcp cast s l1).2 ++ (run dhcp cast (run dhcp cast s l1).1 l2).2) := by
  induction l1 generalizing s with
  | nil => simp [run]
  | cons a rest ih =>
    simp only [List.cons_append, run, List.append_eq, ih, List.append_assoc]

/-- Four task statements starting at the wait with the bit set, an
uninitialized client, and a failing init outcome: complete the wait,
take the failed check, attempt init (failure), sleep 2000 ms, and be
back at the wait with the oracle advanced. -/
theorem run_four_fail (dhcp : Bool) (cast : Ip4Addr → GotIpEvent) (rs : List Bool) :
    run dhcp cast (loopState (false :: rs)) (List.replicate 4 Act.task)
      = (loopState rs, [Eff.waitBits, Eff.initAttempt false, Eff.delay 2000]) :=
  rfl

/-- A task step emits the callback installation only from
`Pc.atInstall`. -/
theorem sip_task_step_install_src {s s1 : SysState} {effs : List Eff}
    (hstep : sip_task_step s = some (s1, effs)) (hmem : Eff.installHandler ∈ effs) :
    s.pc = Pc.atInstall := by
  unfold sip_task_step at hstep
  split at hstep
  · split at hstep
    · simp only [Option.some.injEq, Prod.mk.injEq] at hstep
      obtain ⟨rfl, rfl⟩ := hstep
      simp at hmem
    · exact Option.noConfusion hstep
  · split at hstep <;>
      (simp only [Option.some.injEq, Prod.mk.injEq] at hstep;
       obtain ⟨rfl, rfl⟩ := hstep; simp at hmem)
  · split at hstep <;>
      (simp only [Option.some.injEq, Prod.mk.injEq] at hstep;
       obtain ⟨rfl, rfl⟩ := hstep; simp at hmem)
  · simp only [Option.some.injEq, Prod.mk.injEq] at hstep
    obtain ⟨rfl, rfl⟩ := hstep
    simp at hmem
  · assumption
  · simp only [Option.some.injEq, Prod.mk.injEq] at hstep
    obtain ⟨rfl, rfl⟩ := hstep
    simp at hmem

/-- The only task step into `Pc.atInstall` is a successful init
attempt. -/
theorem sip_task_step_to_install {s s1 : SysState} {effs : List Eff}
    (hstep : sip_task_step s = some (s1, effs)) (hpc1 : s1.pc = Pc.atInstall) :
    s.pc = Pc.atInit ∧ Eff.initAttempt true ∈ effs := by
  unfold sip_task_step at hstep
  split at hstep
  · split at hstep
    · simp only [Option.some.injEq, Prod.mk.injEq] at hstep
      obtain ⟨rfl, rfl⟩ := hstep
      exact Pc.noConfusion hpc1
    · exact Option.noConfusion hstep
  · split at hstep <;>
      (simp only [Option.some.injEq, Prod.mk.injEq] at hstep;
       obtain ⟨rfl, rfl⟩ := hstep; exact Pc.noConfusion hpc1)
  · split at hstep
    · simp only [Option.some.injEq, Prod.mk.injEq] at hstep
      obtain ⟨rfl, rfl⟩ := hstep
      rename_i hpc _
      exact ⟨hpc, by simp⟩
    · simp only [Option.some.injEq, Prod.mk.injEq] at hstep
      obtain ⟨rfl, rfl⟩ := hstep
      exact Pc.noConfusion hpc1
  · simp only [Option.some.injEq, Prod.mk.injEq] at hstep
    obtain ⟨rfl, rfl⟩ := hstep
    exact Pc.noConfusion hpc1
  · simp only [Option.some.injEq, Prod.mk.injEq] at hstep
    obtain ⟨rfl, rfl⟩ := hstep
    exact Pc.noConfusion hpc1
  · simp only [Option.some.injEq, Prod.mk.injEq] at hstep
    obtain ⟨rfl, rfl⟩ := hstep
    exact Pc.noConfusion hpc1

/-- C3: while the CONNECTED_BIT stays set, N consecutive `init()`
failures produce exactly N attempts; between consecutive attempts the
task executes only the fixed 2000 ms sleep and the blocking wait (no
busy-spin), after each failure the loop restarts from the wait, and the
session event callback is installed only by a step that follows an
`init()` returning success. -/
theorem c3_retry_trace (dhcp : Bool) (cast : Ip4Addr → GotIpEvent) (N : Nat) :
    run dhcp cast (loopState (List.replicate N false)) (List.replicate (4 * N) Act.task)
      = (loopState [],
         List.flatten (List.replicate N [Eff.waitBits, Eff.initAttempt false, Eff.delay 2000]))
    ∧ (∀ s s1 effs, sip_task_step s = some (s1, effs) → Eff.installHandler ∈ effs →
         s.pc = Pc.atInstall)
    ∧ (∀ s s1 effs, sip_task_step s = some (s1, effs) → s1.pc = Pc.atInstall →
         s.pc = Pc.atInit ∧ Eff.initAttempt true ∈ effs) := by
  refine ⟨?_, fun s s1 effs h1 h2 => sip_task_step_install_src h1 h2,
    fun s s1 effs h1 h2 => sip_task_step_to_install h1 h2⟩
  induction N with
  | zero => rfl
  | succ n ih =>
    have hacts : List.replicate (4 * (n + 1)) Act.task
        = List.replicate 4 Act.task ++ List.replicate (4 * n) Act.task := by
      have h4 : 4 * (n + 1) = 4 + 4 * n := by ring
      rw [h4, List.replicate_add]
    have hrs : List.replicate (n + 1) false = false :: List.replicate n false :=
      List.replicate_succ false n
    rw [hrs, hacts, run_append, run_four_fail, ih, List.replicate_succ, List.flatten_cons]

/-- Witness for C3: two failing outcomes yield exactly the two attempts
with the 2000 ms delays; a concrete step emitting the installation sits
at `Pc.atInstall`; the concrete step into `Pc.atInstall` is a
successful init attempt. -/
theorem c3_retry_trace_witness :
    run false cast0 (loopState [false, false]) (List.replicate 8 Act.task)
      = (loopState [],
         [Eff.waitBits, Eff.initAttempt false, Eff.delay 2000,
          Eff.waitBits, Eff.initAttempt false, Eff.delay 2000])
    ∧ installState.pc = Pc.atInstall
    ∧ (preInitState.pc = Pc.atInit ∧ Eff.initAttempt true ∈ [Eff.initAttempt true]) :=
  ⟨(c3_retry_trace false cast0 2).1,
   (c3_retry_trace false cast0 2).2.1 installState
     { installState with
        client := { client0 with handlerInstalled := true }, pc := Pc.atRun }
     [Eff.installHandler] rfl (by decide),
   (c3_retry_trace false cast0 2).2.2 preInitState
     { preInitState with
        client := { client0 with initialized := true },
        initResults := [], pc := Pc.atInstall }
     [Eff.initAttempt true] rfl rfl⟩

/-- While the loop sits at the wait with the bit clear, no schedule
without an address-acquired delivery can make progress: the task stays
blocked at the wait, the bit stays clear, and in particular no init
attempt is ever emitted. -/
theorem run_blocked (dhcp : Bool) (cast : Ip4Addr → GotIpEvent)
    (acts : List Act) {s : SysState}
    (hpc : s.pc = Pc.atWait) (hbit : s.connectedBit = false)
    (hacts : ∀ a ∈ acts, a.isGotIp = false) :
    (run dhcp cast s acts).1.pc = Pc.atWait
    ∧ (run dhcp cast s acts).1.connectedBit = false
    ∧ ∀ b, Eff.initAttempt b ∉ (run dhcp cast s acts).2 := by
  induction acts generalizing s with
  | nil => exact ⟨hpc, hbit, by simp [run]⟩
  | cons a rest ih =>
    cases a
    case task =>
      have hstep : sip_task_step s = none := by
        unfold sip_task_step
        rw [hpc, hbit]
        simp
      have hrun : run dhcp cast s (Act.task :: rest) = run dhcp cast s rest := by
        simp [run, applyAct, hstep]
      rw [hrun]
      exact ih hpc hbit (fun x hx => hacts x (List.mem_cons_of_mem _ hx))
    case disconnect =>
      have hrest := ih
        (s := { s with client := { s.client with initialized := false }, connectedBit := false })
        hpc rfl (fun x hx => hacts x (List.mem_cons_of_mem _ hx))
      have hrun : run dhcp cast s (Act.disconnect :: rest)
          = ((run dhcp cast { s with client := { s.client with initialized := false }, connectedBit := false } rest).1,
             [Eff.deinit, Eff.wifiConnect, Eff.clearBit]
               ++ (run dhcp cast { s with client := { s.client with initialized := false }, connectedBit := false } rest).2) := rfl
      rw [hrun]
      refine ⟨hrest.1, hrest.2.1, fun b hb => ?_⟩
      simp only [List.mem_append] at hb
      rcases hb with hb | hb
      · simp at hb
      · exact hrest.2.2 b hb
    case gotIp ev =>
      have hg := hacts (Act.gotIp ev) (List.mem_cons_self _ _)
      simp [Act.isGotIp] at hg

/-- C8: if a disconnect cleared the CONNECTED_BIT while the task was in
the 2000 ms inter-attempt delay, then once the delay elapses the loop
`continue`s to the top, the wait on the bit blocks (the task step is
disabled), and no `init()` attempt occurs under any schedule until an
address-acquired delivery sets the bit again. -/
theorem c8_disconnect_during_delay (dhcp : Bool) (cast : Ip4Addr → GotIpEvent)
    (s : SysState) (acts : List Act)
    (hpc : s.pc = Pc.atDelay) (hbit : s.connectedBit = false)
    (hacts : ∀ a ∈ acts, a.isGotIp = false) :
    sip_task_step s = some ({ s with pc := Pc.atWait }, [Eff.delay 2000])
    ∧ sip_task_step { s with pc := Pc.atWait } = none
    ∧ ∀ b, Eff.initAttempt b ∉ (run dhcp cast { s with pc := Pc.atWait } acts).2 := by
  refine ⟨?_, ?_, ?_⟩
  · unfold sip_task_step
    rw [hpc]
  · unfold sip_task_step
    simp [hbit]
  · exact (run_blocked dhcp cast acts (s := { s with pc := Pc.atWait }) rfl hbit hacts).2.2

/-- Witness for C8: a concrete post-disconnect delay state with a
schedule of one task step, one further disconnect, and another task
step. -/
theorem c8_disconnect_during_delay_witness :
    sip_task_step delayState = some ({ delayState with pc := Pc.atWait }, [Eff.delay 2000])
    ∧ sip_task_step { delayState with pc := Pc.atWait } = none
    ∧ ∀ b, Eff.initAttempt b
        ∉ (run false cast0 { delayState with pc := Pc.atWait }
            [Act.task, Act.disconnect, Act.task]).2 :=
  c8_disconnect_during_delay false cast0 delayState [Act.task, Act.disconnect, Act.task]
    rfl rfl (by decide)

/-- Witness for C10: instance at a concrete configuration, client state
and event. -/
theorem c10_got_ip_frame_witness :
    (handle_got_ip true cast0 client0 ev0).1.initialized = client0.initialized
    ∧ (handle_got_ip true cast0 client0 ev0).1.handlerInstalled = client0.handlerInstalled
    ∧ (handle_got_ip true cast0 client0 ev0).2.1 = true
    ∧ Eff.deinit ∉ (handle_got_ip true cast0 client0 ev0).2.2
    ∧ (∀ b, Eff.initAttempt b ∉ (handle_got_ip true cast0 client0 ev0).2.2)
    ∧ Eff.installHandler ∉ (handle_got_ip true cast0 client0 ev0).2.2
    ∧ Eff.clearBit ∉ (handle_got_ip true cast0 client0 ev0).2.2
    ∧ event_handler true cast0 (some client0) false EventBase.IP_EVENT EventId.STA_GOT_IP ev0
        = Except.ok (some (handle_got_ip true cast0 client0 ev0).1,
            (handle_got_ip true cast0 client0 ev0).2.1,
            (handle_got_ip true cast0 client0 ev0).2.2) :=
  c10_got_ip_frame true cast0 client0 false ev0
